import Mathlib

/-!
Shallow embedding of the core of `radiod` (src/main.c of ka9q-radio) and
verification of its natural-language specification.

Machine integers are modelled as `Nat`/`Int` with explicit `% 2^32` where the
C code relies on `uint32_t` wraparound; C `double` arithmetic on configuration
values (block times, sample rates, frequencies) is modelled over `ℚ`; fallible
steps return `Option`/`Except`.  Functions defined in other files of the
repository (radio.c, filter.c) that are needed by a claim are modelled from the
spec and say so in their doc comments.
-/

namespace Radiod

/-- C `lround`: round to nearest, halfway cases away from zero. -/
def lround (x : ℚ) : ℤ :=
if 0 ≤ x then ⌊x + 1/2⌋ else -⌊-x + 1/2⌋

/-- C conversion of a nonintegral `double` to an integer type: truncation
toward zero. -/
def c_trunc (x : ℚ) : ℤ :=
if 0 ≤ x then ⌊x⌋ else ⌈x⌉

/-- 2^32, the modulus of C `uint32_t` arithmetic. -/
def UINT32_MOD : ℕ := 4294967296

/-! ### sysexits.h exit codes used by main.c -/

def EX_OK : ℤ := 0

def EX_USAGE : ℤ := 64

def EX_NOINPUT : ℤ := 66

def EX_NOHOST : ℤ := 68

def EX_UNAVAILABLE : ℤ := 69

def EX_SOFTWARE : ℤ := 70

/-! ### Filter sizing (setup_hardware, src/main.c lines 934-948)

`eL = Frontend.samprate * Blocktime / 1000.0; Frontend.L = lround(eL);`
`Frontend.M = Frontend.L / (Overlap - 1) + 1;`
`int const N = Frontend.M + Frontend.L - 1;` -/

/-- `Frontend.L`: block size in samples, from the sample rate (Hz) and the
block time (ms). -/
def frontend_L (samprate : ℤ) (blocktime : ℚ) : ℤ :=
lround ((samprate : ℚ) * blocktime / 1000)

/-- `Frontend.M`: filter impulse-response length.  C `int` division truncates
toward zero (`Int.tdiv`). -/
def frontend_M (L overlap : ℤ) : ℤ :=
L.tdiv (overlap - 1) + 1

/-- `N`: FFT size, as computed in setup_hardware. -/
def fft_N (L M : ℤ) : ℤ :=
M + L - 1

/-! ### Signal handling (main lines 231-237, closedown lines 1050-1058,
verbosity lines 1061-1068) -/

inductive Sig
| sigint
| sigquit
| sigterm
| sigpipe
| sigusr1
| sigusr2
deriving DecidableEq

/-- The process state a signal handler can touch: the `Stop_transfers` flag
and the `Verbose` level. -/
structure SigState where
  stop : Bool
  verbose : ℤ
deriving DecidableEq

/-- Result of delivering one signal: the handler returns, the signal is
ignored (`SIG_IGN`), or the process exits after sleeping `sleepSec` seconds
with the given code. -/
inductive SigOutcome
| continues (st : SigState)
| ignored (st : SigState)
| exits (st : SigState) (sleepSec : ℕ) (code : ℤ)
deriving DecidableEq

/-- `closedown` (lines 1050-1058): set `Stop_transfers`, `sleep(1)`, then
`_exit(a == SIGTERM ? EX_OK : EX_SOFTWARE)`. -/
def closedown (st : SigState) (a : Sig) : SigOutcome :=
SigOutcome.exits { st with stop := true } 1
  (if a = Sig.sigterm then EX_OK else EX_SOFTWARE)

/-- `verbosity` (lines 1061-1068): USR1 increments `Verbose`; USR2 sets it to
`0` when it is `≤ 0`, else decrements it; other signals return unchanged. -/
def verbosity (st : SigState) (a : Sig) : SigOutcome :=
if a = Sig.sigusr1 then
  SigOutcome.continues { st with verbose := st.verbose + 1 }
else if a = Sig.sigusr2 then
  SigOutcome.continues
    { st with verbose := if st.verbose ≤ 0 then 0 else st.verbose - 1 }
else SigOutcome.continues st

/-- The signal dispositions installed by `main` (lines 231-237):
INT/QUIT/TERM → closedown, PIPE → SIG_IGN, USR1/USR2 → verbosity. -/
def handle_signal (st : SigState) : Sig → SigOutcome
| Sig.sigint => closedown st Sig.sigint
| Sig.sigquit => closedown st Sig.sigquit
| Sig.sigterm => closedown st Sig.sigterm
| Sig.sigpipe => SigOutcome.ignored st
| Sig.sigusr1 => verbosity st Sig.sigusr1
| Sig.sigusr2 => verbosity st Sig.sigusr2

/-! ### Default SSRC derivation and channel creation
(process_section, src/main.c lines 759-822) -/

/-- One step of the digit-accumulation loop (lines 770-775):
`ssrc *= 10; ssrc += *cp - '0';` in `uint32_t` arithmetic, applied only to
digit characters. -/
def ssrc_step (ssrc : ℕ) (c : Char) : ℕ :=
if c.isDigit then (ssrc * 10 + (c.toNat - 48)) % UINT32_MOD else ssrc

/-- Default SSRC generated from a frequency token's characters. -/
def default_ssrc (tok : String) : ℕ :=
tok.data.foldl ssrc_step 0

/-- The value of a character list read as a decimal numeral (spec side, for
comparison with `default_ssrc`). -/
def digits_val (l : List Char) : ℕ :=
l.foldl (fun a c => a * 10 + (c.toNat - 48)) 0

/-- Modelled from the spec: `create_chan(ssrc) → channel | nil` inserts a new
channel with the given SSRC if free, else returns nil (channel registry,
radio.c — not under src/).  The registry is modelled as the list of SSRCs in
use; a successful create returns the SSRC it registered. -/
def create_chan (used : List ℕ) (ssrc : ℕ) : Option ℕ :=
if ssrc ∈ used then none else some ssrc

/-- The collision-probing loop of process_section (lines 782-787): try
`create_chan` on successive SSRCs (`uint32_t` increments), at most `fuel`
times, stopping at the first success. -/
def probe_from (used : List ℕ) : ℕ → ℕ → Option ℕ
| _, 0 => none
| s, fuel+1 =>
  match create_chan used (s % UINT32_MOD) with
  | some c => some c
  | none => probe_from used (s+1) fuel

/-- `max_collisions = 100` probes (line 782). -/
def probe_create (used : List ℕ) (s : ℕ) : Option ℕ :=
probe_from used s 100

/-- Channel creation for one frequency token (lines 768-791): derive the
default SSRC from the token's digits, let an explicit `ssrc =` key override
it, skip the reserved SSRC 0, then probe up to 100 successive SSRCs. -/
def token_create (used : List ℕ) (explicit : Option ℕ) (tok : String) : Option ℕ :=
let ssrc := explicit.getD (default_ssrc tok)
if ssrc = 0 then none else probe_create used ssrc

/-- The per-section frequency loop (lines 759-822), sequential over the
tokens of the `freq` lists.  `parses` models `parse_frequency(tok) ≥ 0`
(misc.c, not under src/; an unparseable token is skipped with a warning).
Returns the SSRCs of the channels created, in order, and the updated
registry. -/
def process_freqs (parses : String → Bool) (explicit : Option ℕ) :
    List String → List ℕ → List ℕ × List ℕ
| [], used => ([], used)
| tok :: rest, used =>
  if parses tok then
    match token_create used explicit tok with
    | none => process_freqs parses explicit rest used
    | some ssrc =>
      let r := process_freqs parses explicit rest (ssrc :: used)
      (ssrc :: r.1, r.2)
  else process_freqs parses explicit rest used

/-! ### Channel idle lifetime (loadconfig line 418 and lines 522-524) -/

/-- `DEFAULT_LIFETIME` (line 55): 20 seconds for idle sessions tuned to 0 Hz. -/
def DEFAULT_LIFETIME : ℤ := 20

/-- `Channel_idle_timeout = 20 * 1000 / Blocktime` (line 418): C conversion of
the `double` quotient to `int` truncates toward zero. -/
def Channel_idle_timeout (blocktime : ℚ) : ℤ :=
c_trunc (20 * 1000 / blocktime)

/-- `Template.lifetime = DEFAULT_LIFETIME * 1000 / Blocktime` (line 524), in
blocks. -/
def template_lifetime (blocktime : ℚ) : ℤ :=
c_trunc ((DEFAULT_LIFETIME : ℚ) * 1000 / blocktime)

/-- Modelled from the spec: the per-block idle countdown of a channel with
`freq == 0` that receives no command (`lifetime` is a countdown in blocks;
the reaper destroys the channel when it runs out — radio.c, not under
src/). -/
def lifetime_after (lifetime : ℤ) (blocks : ℕ) : ℤ :=
lifetime - blocks

/-- Modelled from the spec: whether a channel with `freq == 0` and no command
for `blocks` blocks has been destroyed. -/
def idle_destroyed (lifetime : ℤ) (blocks : ℕ) : Prop :=
lifetime_after lifetime blocks ≤ 0

/-! ### Channel parameter template (process_section lines 677-691) -/

/-- Channel parameters, modelled as a total assignment of a value to every
parameter key. -/
abbrev Params := String → ℤ

/-- A configuration layer: the parameters that one section or preset entry
specifies. -/
abbrev Layer := String → Option ℤ

/-- Modelled from the spec: `loadpreset(chan, table, name)` overwrites in the
channel exactly the parameters that the named section specifies, leaving the
rest unchanged (radio.c, not under src/). -/
def loadpreset (t : Params) (l : Layer) : Params :=
fun k => (l k).getD (t k)

/-- The `chan_template` built by process_section (lines 683-691):
`set_defaults` (compiled-in defaults, the base `dflt`), then the `[global]`
section, then the preset entry when the section names one and the preset
table has it (a missing name only warns and changes nothing), then the
section's own keys. -/
def chan_template (dflt : Params) (global : Layer)
    (presetTable : String → Option Layer) (presetName : Option String)
    (sectLayer : Layer) : Params :=
let t1 := loadpreset dflt global
let t2 := match presetName with
  | none => t1
  | some p => match presetTable p with
    | none => t1
    | some pl => loadpreset t1 pl
loadpreset t2 sectLayer

/-! ### fft-plan-level (loadconfig lines 424-437) -/

/-- ASCII lower-casing of a character code, for `strcasecmp`. -/
def lower_nat (c : Char) : ℕ :=
if 65 ≤ c.toNat ∧ c.toNat ≤ 90 then c.toNat + 32 else c.toNat

/-- `strcasecmp(a, b) == 0`: byte-wise case-insensitive equality. -/
def caseless_eq (a b : String) : Bool :=
a.data.map lower_nat == b.data.map lower_nat

/-- The FFTW planning levels named by `fft-plan-level`. -/
inductive PlanLevel
| estimate
| measure
| patient
| exhaustive
| wisdomOnly
deriving DecidableEq

/-- The recognized `fft-plan-level` values (lines 426-435), matched with
`strcasecmp`. -/
def parse_plan_level (s : String) : Option PlanLevel :=
if caseless_eq s "estimate" then some PlanLevel.estimate
else if caseless_eq s "measure" then some PlanLevel.measure
else if caseless_eq s "patient" then some PlanLevel.patient
else if caseless_eq s "exhaustive" then some PlanLevel.exhaustive
else if caseless_eq s "wisdom-only" then some PlanLevel.wisdomOnly
else none

/-- The `fft-plan-level` block (lines 424-437): an unrecognized value falls
through every `strcasecmp` branch and leaves `FFTW_planning_level` at its
previous value. -/
def set_plan_level (s : String) (prev : PlanLevel) : PlanLevel :=
(parse_plan_level s).getD prev

/-! ### loadconfig's fatal-error structure (lines 295-654) -/

/-- One channel-group section, as process_section reads it. -/
structure ChanSection where
  presetName : Option String
  sectLayer : Layer
  explicitSsrc : Option ℕ
  freqToks : List String

/-- The configuration facts loadconfig consumes, in the order it consumes
them.  External outcomes main.c only branches on (whether `iniparser_load`
of the presets file returned non-NULL, whether the hardware section was
found and its driver `setup` returned 0, whether the output sockets could be
created) are modelled as booleans. -/
structure Config where
  fftPlanLevel : Option String
  presetTableOk : Bool
  hardwareKey : Option String
  hardwareFound : Bool
  hardwareSetupOk : Bool
  outputBindOk : Bool
  dataName : String
  statusName : String
  sections : List ChanSection

/-- Result of a successful startup: the resolved planning level and the
SSRCs of the channels the section threads created. -/
structure RunState where
  planLevel : PlanLevel
  channels : List ℕ
deriving DecidableEq

/-- The channels created by the per-section startup threads (lines 627-650).
The threads run concurrently and `create_chan` serializes registry
insertion; this sequentializes the sections in file order, which is faithful
to every per-section property proved here. -/
def process_sections (parses : String → Bool) :
    List ChanSection → List ℕ → List ℕ
| [], _ => []
| sect :: rest, used =>
  let r := process_freqs parses sect.explicitSsrc sect.freqToks used
  r.1 ++ process_sections parses rest r.2

/-- loadconfig's startup sequence in source order, with `exit(code)` modelled
as `Except.error code`: resolve `fft-plan-level` (lines 424-437, never
fatal), load the preset table (lines 449-458, `exit(EX_UNAVAILABLE)` on
failure), require and find the hardware section and run its setup (lines
478-501, `exit(EX_USAGE)` / `exit(EX_NOINPUT)`), create the output sockets
(lines 576-592, `exit(EX_NOHOST)`), reject duplicate status/data stream
names (lines 594-598, `exit(EX_USAGE)`), and only then run the
channel-creating section threads (lines 627-650). -/
def loadconfig (parses : String → Bool) (cfg : Config) : Except ℤ RunState :=
let lvl := set_plan_level (cfg.fftPlanLevel.getD "patient") PlanLevel.patient
if cfg.presetTableOk = false then Except.error EX_UNAVAILABLE
else if cfg.hardwareKey = none then Except.error EX_USAGE
else if cfg.hardwareFound = false then Except.error EX_USAGE
else if cfg.hardwareSetupOk = false then Except.error EX_NOINPUT
else if cfg.outputBindOk = false then Except.error EX_NOHOST
else if cfg.statusName = cfg.dataName then Except.error EX_USAGE
else Except.ok
  { planLevel := lvl
    channels := process_sections parses cfg.sections [] }

/-! ### Notch list construction (setup_hardware lines 945-963) -/

/-- Modelled from the spec: `compute_tuning(N, M, samprate, freq) →
(shift, remainder)` (radio.c, not under src/): `bin_width = samprate / N`,
`shift = round(freq / bin_width)`; fails with OutOfRange when
`|freq| > samprate/2` for complex input or `freq ∉ [0, samprate/2]` for real
input.  Only the shift is used by the notch loop; the `M` argument of the C
interface does not enter the spec's formula, and within the accepted range
the spec's reduction modulo `N` is the identity. -/
def compute_tuning (isreal : Bool) (N _M samprate : ℤ) (freq : ℚ) : Option ℤ :=
if isreal then
  if freq < 0 ∨ (samprate : ℚ) / 2 < freq then none
  else some (round (freq * N / samprate))
else
  if (samprate : ℚ) / 2 < |freq| then none
  else some (round (freq * N / samprate))

/-- Per-spur runtime state (`struct notch_state`): bin index, smoothing
coefficient, running magnitude estimate. -/
structure NotchState where
  bin : ℤ
  alpha : ℚ
  state : ℚ
deriving DecidableEq

/-- A `calloc`-zeroed notch entry. -/
def zero_notch : NotchState := ⟨0, 0, 0⟩

/-- The spur-initialization loop of setup_hardware (lines 950-963): walk the
configured spur frequencies in order, writing one entry per accepted spur
with `state = 0`, `bin = |shift|` and `alpha = 0.01`; break without writing
on a compute_tuning failure, and break after writing when `shift == 0` (the
DC entry, implicitly last). -/
def spur_entries (isreal : Bool) (N M samprate : ℤ) : List ℚ → List NotchState
| [] => []
| f :: rest =>
  match compute_tuning isreal N M samprate f with
  | none => []
  | some shift =>
    if shift = 0 then [⟨0, 1/100, 0⟩]
    else ⟨|shift|, 1/100, 0⟩ :: spur_entries isreal N M samprate rest

/-- `Frontend.in.notches`: the 100-entry `calloc`ed array after the loop;
entries past the last written one stay zeroed (line 946). -/
def notches (isreal : Bool) (N M samprate : ℤ) (spurs : List ℚ) : List NotchState :=
let w := spur_entries isreal N M samprate spurs
w ++ List.replicate (100 - w.length) zero_notch

/-- A concrete, otherwise-valid configuration whose `fft-plan-level` value is
the unrecognized string `bogus`. -/
def bogus_plan_cfg : Config :=
{ fftPlanLevel := some "bogus"
  presetTableOk := true
  hardwareKey := some "rx888"
  hardwareFound := true
  hardwareSetupOk := true
  outputBindOk := true
  dataName := "hf-pcm.local"
  statusName := "hf.local"
  sections := [] }

/-- A concrete configuration whose resolved status and data stream names are
equal. -/
def dup_names_cfg : Config :=
{ fftPlanLevel := none
  presetTableOk := true
  hardwareKey := some "rx888"
  hardwareFound := true
  hardwareSetupOk := true
  outputBindOk := true
  dataName := "hf.local"
  statusName := "hf.local"
  sections := [] }

/-- A concrete configuration whose presets file could not be loaded. -/
def no_presets_cfg : Config :=
{ fftPlanLevel := none
  presetTableOk := false
  hardwareKey := some "rx888"
  hardwareFound := true
  hardwareSetupOk := true
  outputBindOk := true
  dataName := "hf-pcm.local"
  statusName := "hf.local"
  sections := [] }

/-! ### Theorems -/

/-- Helper: `lround` agrees with round-half-up on nonnegative arguments. -/
theorem lround_eq_round_of_nonneg (x : ℚ) (hx : 0 ≤ x) : lround x = round x := by
  rw [lround, if_pos hx, round_eq]

/-- Helper: evaluate `lround` on a nonnegative argument by bounding it. -/
theorem lround_eq_of (x : ℚ) (n : ℤ) (h1 : 0 ≤ x) (h2 : (n : ℚ) ≤ x + 1/2)
    (h3 : x + 1/2 < n + 1) : lround x = n := by
  rw [lround, if_pos h1]
  exact Int.floor_eq_iff.mpr ⟨h2, by exact_mod_cast h3⟩

/-- C1: for a front end with `samprate > 0` and configured `Blocktime > 0`,
`Overlap ≥ 2`, the filter sizes computed in setup_hardware satisfy
`L = round(samprate * Blocktime / 1000)`, `M = L / (Overlap - 1) + 1`
(integer division) and `N = L + M - 1`. -/
theorem filter_sizes_spec (samprate : ℤ) (blocktime : ℚ) (overlap : ℤ)
    (hs : 0 < samprate) (hb : 0 < blocktime) (ho : 2 ≤ overlap) :
    frontend_L samprate blocktime = round ((samprate : ℚ) * blocktime / 1000)
    ∧ frontend_M (frontend_L samprate blocktime) overlap
        = frontend_L samprate blocktime / (overlap - 1) + 1
    ∧ fft_N (frontend_L samprate blocktime)
        (frontend_M (frontend_L samprate blocktime) overlap)
        = frontend_L samprate blocktime
          + frontend_M (frontend_L samprate blocktime) overlap - 1 := by
  have hx : (0 : ℚ) ≤ (samprate : ℚ) * blocktime / 1000 := by positivity
  have hL : frontend_L samprate blocktime
      = round ((samprate : ℚ) * blocktime / 1000) :=
    lround_eq_round_of_nonneg _ hx
  refine ⟨hL, ?_, ?_⟩
  · have hLnn : 0 ≤ frontend_L samprate blocktime := by
      rw [hL, round_eq]
      have : (0 : ℚ) ≤ (samprate : ℚ) * blocktime / 1000 + 1/2 := by positivity
      exact Int.floor_nonneg.mpr this
    have hov : 0 ≤ overlap - 1 := by omega
    rw [frontend_M, Int.tdiv_eq_ediv hLnn hov]
  · rw [fft_N]; ring

/-- C1 witness: `samprate = 1,200,000` Hz, `Blocktime = 20` ms, `Overlap = 5`
yields `L = 24,000`, `M = 6,001`, `N = 30,000`, and the theorem applies there. -/
theorem filter_sizes_spec_witness :
    (frontend_L 1200000 20 = 24000
      ∧ frontend_M 24000 5 = 6001
      ∧ fft_N 24000 6001 = 30000)
    ∧ ((0 : ℤ) < 1200000 ∧ (0 : ℚ) < 20 ∧ (2 : ℤ) ≤ 5)
    ∧ (frontend_L 1200000 20 = round ((1200000 : ℚ) * 20 / 1000)
        ∧ frontend_M (frontend_L 1200000 20) 5
            = frontend_L 1200000 20 / (5 - 1) + 1
        ∧ fft_N (frontend_L 1200000 20) (frontend_M (frontend_L 1200000 20) 5)
            = frontend_L 1200000 20 + frontend_M (frontend_L 1200000 20) 5 - 1) :=
  ⟨⟨by rw [frontend_L]; exact lround_eq_of _ _ (by norm_num) (by norm_num) (by norm_num),
      by decide, by decide⟩,
    ⟨by norm_num, by norm_num, by norm_num⟩,
    filter_sizes_spec 1200000 20 5 (by norm_num) (by norm_num) (by norm_num)⟩

/-- C8: INT, QUIT and TERM set the stop flag, sleep 1 second, and exit with
code 0 for TERM and 70 otherwise; PIPE is ignored; USR1 increments the
verbosity; USR2 decrements it with floor 0. -/
theorem signal_dispositions (st : SigState) :
    handle_signal st Sig.sigint
        = SigOutcome.exits { st with stop := true } 1 70
    ∧ handle_signal st Sig.sigquit
        = SigOutcome.exits { st with stop := true } 1 70
    ∧ handle_signal st Sig.sigterm
        = SigOutcome.exits { st with stop := true } 1 0
    ∧ handle_signal st Sig.sigpipe = SigOutcome.ignored st
    ∧ handle_signal st Sig.sigusr1
        = SigOutcome.continues { st with verbose := st.verbose + 1 }
    ∧ handle_signal st Sig.sigusr2
        = SigOutcome.continues { st with verbose := max (st.verbose - 1) 0 } := by
  refine ⟨rfl, rfl, rfl, rfl, rfl, ?_⟩
  have hv : (if st.verbose ≤ 0 then 0 else st.verbose - 1)
      = max (st.verbose - 1) 0 := by
    by_cases h : st.verbose ≤ 0
    · rw [if_pos h]; omega
    · rw [if_neg h]; omega
  simp [handle_signal, verbosity, hv]

/-- Helper: the decimal-accumulation fold is congruent modulo 2^32 in its
accumulator. -/
theorem digits_fold_congr (l : List Char) :
    ∀ x y : ℕ, x % UINT32_MOD = y % UINT32_MOD →
      (l.foldl (fun a c => a * 10 + (c.toNat - 48)) x) % UINT32_MOD
        = (l.foldl (fun a c => a * 10 + (c.toNat - 48)) y) % UINT32_MOD := by
  induction l with
  | nil => intro x y h; simpa using h
  | cons c l ih =>
    intro x y h
    simp only [List.foldl_cons]
    apply ih
    have hx : x % UINT32_MOD ≡ y % UINT32_MOD [MOD UINT32_MOD] := by rw [h]
    have : x ≡ y [MOD UINT32_MOD] :=
      (Nat.mod_modEq x UINT32_MOD).symm.trans (hx.trans (Nat.mod_modEq y UINT32_MOD))
    exact (this.mul_right 10).add_right (c.toNat - 48)

/-- Helper: the `uint32_t` digit loop equals the pure decimal fold over the
digit characters, reduced mod 2^32 at the end. -/
theorem ssrc_fold (l : List Char) :
    ∀ x : ℕ, x % UINT32_MOD = x →
      l.foldl ssrc_step x
        = ((l.filter Char.isDigit).foldl (fun a c => a * 10 + (c.toNat - 48)) x)
            % UINT32_MOD := by
  induction l with
  | nil => intro x hx; simpa using hx.symm
  | cons c l ih =>
    intro x hx
    by_cases hc : c.isDigit
    · simp only [List.foldl_cons, List.filter_cons, hc, if_pos]
      rw [show ssrc_step x c = (x * 10 + (c.toNat - 48)) % UINT32_MOD from
        by rw [ssrc_step, if_pos hc]]
      rw [ih _ (Nat.mod_mod_of_dvd _ dvd_rfl)]
      exact digits_fold_congr _ _ _ (Nat.mod_mod _ _)
    · simp only [List.foldl_cons, List.filter_cons, hc]
      rw [show ssrc_step x c = x from by rw [ssrc_step, if_neg hc]]
      simpa using ih x hx

/-- C3: the default SSRC of a frequency token is the `uint32_t` value of the
token's decimal digits read in order (non-digits ignored); a resulting SSRC
of 0 (reserved) creates no channel; token `7,040,000` yields 7040000. -/
theorem ssrc_from_digits :
    (∀ tok : String,
      default_ssrc tok = digits_val (tok.data.filter Char.isDigit) % UINT32_MOD)
    ∧ (∀ (used : List ℕ) (explicit : Option ℕ) (tok : String),
        explicit.getD (default_ssrc tok) = 0 → token_create used explicit tok = none)
    ∧ default_ssrc "7,040,000" = 7040000 := by
  refine ⟨?_, ?_, ?_⟩
  · intro tok
    exact ssrc_fold tok.data 0 (by decide)
  · intro used explicit tok h
    rw [token_create]
    simp [h]
  · decide

/-- C3 witness: the digit characterization at token `7,040,000`, and the
reserved-0 rule at a digit-free token. -/
theorem ssrc_from_digits_witness :
    default_ssrc "7,040,000"
        = digits_val ("7,040,000".data.filter Char.isDigit) % UINT32_MOD
    ∧ ((Option.none (α := ℕ)).getD (default_ssrc "audio") = 0
        ∧ token_create [] none "audio" = none) :=
  ⟨ssrc_from_digits.1 "7,040,000",
    by decide, ssrc_from_digits.2.1 [] none "audio" (by decide)⟩

/-- Helper: the probing loop succeeds at the first free SSRC in its window. -/
theorem probe_from_found (used : List ℕ) :
    ∀ (fuel s j : ℕ), j < fuel →
      (∀ i, i < j → (s + i) % UINT32_MOD ∈ used) →
      (s + j) % UINT32_MOD ∉ used →
      probe_from used s fuel = some ((s + j) % UINT32_MOD) := by
  intro fuel
  induction fuel with
  | zero => intro s j hj; exact absurd hj (Nat.not_lt_zero j)
  | succ n ih =>
    intro s j hj hbusy hfree
    cases j with
    | zero =>
      have hf : s % UINT32_MOD ∉ used := by simpa using hfree
      simp [probe_from, create_chan, hf]
    | succ k =>
      have h0 : s % UINT32_MOD ∈ used := by simpa using hbusy 0 (Nat.succ_pos k)
      have step : probe_from used s (n+1) = probe_from used (s+1) n := by
        simp [probe_from, create_chan, h0]
      rw [step]
      have e : s + 1 + k = s + (k + 1) := by omega
      have := ih (s+1) k (by omega)
        (fun i hi => by
          have e2 : s + 1 + i = s + (i + 1) := by omega
          rw [e2]; exact hbusy (i+1) (by omega))
        (by rw [e]; exact hfree)
      rw [this, e]

/-- Helper: the probing loop fails when its whole window is in use. -/
theorem probe_from_none (used : List ℕ) :
    ∀ (fuel s : ℕ),
      (∀ i, i < fuel → (s + i) % UINT32_MOD ∈ used) →
      probe_from used s fuel = none := by
  intro fuel
  induction fuel with
  | zero => intro s _; rfl
  | succ n ih =>
    intro s hbusy
    have h0 : s % UINT32_MOD ∈ used := by simpa using hbusy 0 (Nat.succ_pos n)
    have step : probe_from used s (n+1) = probe_from used (s+1) n := by
      simp [probe_from, create_chan, h0]
    rw [step]
    exact ih (s+1) (fun i hi => by
      have e2 : s + 1 + i = s + (i + 1) := by omega
      rw [e2]; exact hbusy (i+1) (by omega))

/-- C2: for a nonzero requested SSRC `s`, channel creation probes at most 100
successive SSRCs `s..s+99` (as `uint32_t`), stopping at the first success; if
all 100 collide no channel is created; and two entries with the same default
SSRC put the second at SSRC+1. -/
theorem ssrc_probe_spec :
    (∀ (used : List ℕ) (s j : ℕ), j < 100 →
        (∀ i, i < j → (s + i) % UINT32_MOD ∈ used) →
        (s + j) % UINT32_MOD ∉ used →
        probe_create used s = some ((s + j) % UINT32_MOD))
    ∧ (∀ (used : List ℕ) (s : ℕ),
        (∀ i, i < 100 → (s + i) % UINT32_MOD ∈ used) →
        probe_create used s = none)
    ∧ (∀ (parses : String → Bool) (used : List ℕ) (tok : String),
        parses tok = true →
        default_ssrc tok ≠ 0 →
        default_ssrc tok + 1 < UINT32_MOD →
        default_ssrc tok ∉ used →
        default_ssrc tok + 1 ∉ used →
        (process_freqs parses none [tok, tok] used).1
          = [default_ssrc tok, default_ssrc tok + 1]) := by
  refine ⟨?_, ?_, ?_⟩
  · intro used s j hj hbusy hfree
    exact probe_from_found used 100 s j hj hbusy hfree
  · intro used s hbusy
    exact probe_from_none used 100 s hbusy
  · intro parses used tok hp hd hlt hd0 hd1
    set d := default_ssrc tok with hdd
    have hdmod : d % UINT32_MOD = d := Nat.mod_eq_of_lt (by omega)
    have hd1mod : (d + 1) % UINT32_MOD = d + 1 := Nat.mod_eq_of_lt hlt
    have h1 : token_create used none tok = some d := by
      rw [token_create]
      simp only [Option.getD_none, ← hdd]
      rw [if_neg hd]
      have := probe_from_found used 100 d 0 (by omega)
        (fun i hi => absurd hi (Nat.not_lt_zero i))
        (by rw [Nat.add_zero, hdmod]; exact hd0)
      rw [probe_create, this, Nat.add_zero, hdmod]
    have h2 : token_create (d :: used) none tok = some (d + 1) := by
      rw [token_create]
      simp only [Option.getD_none, ← hdd]
      rw [if_neg hd]
      have := probe_from_found (d :: used) 100 d 1 (by omega)
        (fun i hi => by
          have : i = 0 := by omega
          subst this
          rw [Nat.add_zero, hdmod]
          exact List.mem_cons_self d used)
        (by
          rw [hd1mod]
          simp only [List.mem_cons, not_or]
          exact ⟨by omega, hd1⟩)
      rw [probe_create, this, hd1mod]
    simp [process_freqs, hp, h1, h2]

/-- C2 witness: probing at concrete registries — empty registry, one
collision, a full window, and two identical tokens landing on SSRC and
SSRC+1. -/
theorem ssrc_probe_spec_witness :
    probe_create [] 42 = some 42
    ∧ probe_create [7040000] 7040000 = some 7040001
    ∧ (process_freqs (fun _ => true) none ["7,040,000", "7,040,000"] []).1
        = [7040000, 7040001] := by
  refine ⟨?_, ?_, ?_⟩
  · have h := ssrc_probe_spec.1 [] 42 0 (by omega)
      (fun i hi => absurd hi (Nat.not_lt_zero i)) (by simp)
    simpa using h
  · have h := ssrc_probe_spec.1 [7040000] 7040000 1 (by omega)
      (fun i hi => by
        have : i = 0 := by omega
        subst this
        decide)
      (by decide)
    simpa using h
  · have h := ssrc_probe_spec.2.2 (fun _ => true) [] "7,040,000" rfl
      (by decide) (by decide) (by simp) (by simp)
    have e : default_ssrc "7,040,000" = 7040000 := by decide
    rw [e] at h
    exact h

/-- Helper: C truncation is the identity on integers. -/
theorem c_trunc_intCast (n : ℤ) : c_trunc (n : ℚ) = n := by
  rw [c_trunc]
  split <;> simp

/-- C4: the idle lifetime in the channel template equals
`20 * 1000 / Blocktime` blocks (the same formula as `Channel_idle_timeout`),
and at the 20 ms default a `freq = 0` channel with no command is destroyed
after exactly 1000 blocks. -/
theorem idle_lifetime_spec (b : ℚ) (_hb : 0 < b) :
    template_lifetime b = Channel_idle_timeout b
    ∧ (∀ n : ℤ, (n : ℚ) = 20 * 1000 / b → template_lifetime b = n)
    ∧ (template_lifetime 20 = 1000
        ∧ idle_destroyed (template_lifetime 20) 1000
        ∧ ∀ k : ℕ, k < 1000 → ¬ idle_destroyed (template_lifetime 20) k) := by
  have h20 : template_lifetime 20 = 1000 := by
    rw [template_lifetime, DEFAULT_LIFETIME]
    norm_num
    exact c_trunc_intCast 1000
  refine ⟨?_, ?_, h20, ?_, ?_⟩
  · rw [template_lifetime, Channel_idle_timeout, DEFAULT_LIFETIME]
    norm_num
  · intro n hn
    rw [template_lifetime, DEFAULT_LIFETIME]
    push_cast
    rw [← hn]
    exact c_trunc_intCast n
  · rw [h20, idle_destroyed, lifetime_after]
    omega
  · intro k hk
    rw [h20, idle_destroyed, lifetime_after]
    omega

/-- C4 witness: the 20 ms default instantiation. -/
theorem idle_lifetime_spec_witness :
    template_lifetime 20 = Channel_idle_timeout 20
    ∧ template_lifetime 20 = 1000
    ∧ idle_destroyed (template_lifetime 20) 1000
    ∧ ¬ idle_destroyed (template_lifetime 20) 999 :=
  ⟨(idle_lifetime_spec 20 (by norm_num)).1,
    (idle_lifetime_spec 20 (by norm_num)).2.2.1,
    (idle_lifetime_spec 20 (by norm_num)).2.2.2.1,
    (idle_lifetime_spec 20 (by norm_num)).2.2.2.2 999 (by norm_num)⟩

/-- C5: channel parameters resolve with strict priority — the section's own
keys over the preset database entry over the `[global]` section over the
compiled-in defaults — because the template applies `set_defaults`, then
`[global]`, then the preset entry, then the section, each layer overwriting
the previous one. -/
theorem template_priority (dflt : Params) (global : Layer)
    (presetTable : String → Option Layer) (p : String) (pl : Layer)
    (sectLayer : Layer) (hp : presetTable p = some pl) (k : String) :
    chan_template dflt global presetTable (some p) sectLayer k
      = match sectLayer k with
        | some v => v
        | none => match pl k with
          | some v => v
          | none => match global k with
            | some v => v
            | none => dflt k := by
  cases hs : sectLayer k <;> cases hl : pl k <;> cases hg : global k <;>
    simp [chan_template, loadpreset, hp, hs, hl, hg]

/-- C5 witness: a concrete key present in all four layers resolves to the
section's value, and lower layers are used when higher ones are silent. -/
theorem template_priority_witness :
    chan_template (fun _ => 0) (fun _ => some 1)
        (fun q => if q = "am" then some (fun _ => some 2) else none)
        (some "am") (fun _ => some 3) "bw" = 3
    ∧ chan_template (fun _ => 0) (fun _ => some 1)
        (fun q => if q = "am" then some (fun _ => none) else none)
        (some "am") (fun _ => none) "bw" = 1 := by
  constructor
  · have h := template_priority (fun _ => 0) (fun _ => some 1)
      (fun q => if q = "am" then some (fun _ => some 2) else none)
      "am" (fun _ => some 2) (fun _ => some 3) (by simp) "bw"
    simpa using h
  · have h := template_priority (fun _ => 0) (fun _ => some 1)
      (fun q => if q = "am" then some (fun _ => none) else none)
      "am" (fun _ => none) (fun _ => none) (by simp) "bw"
    simpa using h

/-- C10: when the resolved status/command stream name equals the resolved
data stream name, startup fails with the usage exit code 64 (lines 594-598);
the error is raised before the channel-creating section threads run, so no
run state — and no channel — is ever produced. -/
theorem dup_stream_names_fatal (parses : String → Bool) (cfg : Config)
    (h1 : cfg.presetTableOk = true) (h2 : cfg.hardwareKey ≠ none)
    (h3 : cfg.hardwareFound = true) (h4 : cfg.hardwareSetupOk = true)
    (h5 : cfg.outputBindOk = true) (hdup : cfg.statusName = cfg.dataName) :
    loadconfig parses cfg = Except.error 64
    ∧ ∀ st : RunState, loadconfig parses cfg ≠ Except.ok st := by
  have h : loadconfig parses cfg = Except.error 64 := by
    rw [loadconfig]
    simp [h1, h2, h3, h4, h5, hdup, EX_USAGE]
  exact ⟨h, fun st hst => by rw [h] at hst; exact Except.noConfusion hst⟩

/-- C10 witness: a configuration with `data` and `status` both resolving to
`hf.local` exits with code 64. -/
theorem dup_stream_names_fatal_witness :
    loadconfig (fun _ => true) dup_names_cfg = Except.error 64 :=
  (dup_stream_names_fatal (fun _ => true) dup_names_cfg rfl
    (by simp [dup_names_cfg]) rfl rfl rfl rfl).1

/-- C9: a preset table that cannot be loaded is fatal with exit code 69
(lines 452-458), whereas a section naming a preset that is missing from the
loaded table only skips the preset layer: the channel template is built from
the compiled-in defaults, the `[global]` section and the section's own keys
(lines 687-691), and the channel is still created. -/
theorem preset_errors_spec :
    (∀ (parses : String → Bool) (cfg : Config),
        cfg.presetTableOk = false → loadconfig parses cfg = Except.error 69)
    ∧ (∀ (dflt : Params) (global : Layer)
        (presetTable : String → Option Layer) (p : String) (sectLayer : Layer),
        presetTable p = none →
        ∀ k, chan_template dflt global presetTable (some p) sectLayer k
          = loadpreset (loadpreset dflt global) sectLayer k) := by
  constructor
  · intro parses cfg h
    rw [loadconfig]
    simp [h, EX_UNAVAILABLE]
  · intro dflt global pt p sl hp k
    simp [chan_template, hp]

/-- C9 witness: a failing preset-table load exits 69; with a missing preset
name the template falls back to the `[global]` value of a key the section
does not set. -/
theorem preset_errors_spec_witness :
    loadconfig (fun _ => true) no_presets_cfg = Except.error 69
    ∧ chan_template (fun _ => 0) (fun _ => some 1) (fun _ => none)
        (some "xyz") (fun _ => none) "bw" = 1 := by
  constructor
  · exact preset_errors_spec.1 (fun _ => true) no_presets_cfg rfl
  · have h := preset_errors_spec.2 (fun _ => 0) (fun _ => some 1)
      (fun _ => none) "xyz" (fun _ => none) rfl "bw"
    simpa [loadpreset] using h

/-- C6 counterexample: with `fft-plan-level = bogus` — a value outside the
recognized enum — startup does not fail; loadconfig succeeds and the
planning level is simply left at the compiled-in default `patient`
(lines 424-437 have no else branch). -/
theorem bad_plan_level_not_fatal_cex :
    parse_plan_level "bogus" = none
    ∧ loadconfig (fun _ => true) bogus_plan_cfg
        = Except.ok { planLevel := PlanLevel.patient, channels := [] } := by
  constructor
  · decide
  · rfl

/-- C6 amended: an unrecognized `fft-plan-level` value is silently ignored —
startup behaves exactly as if the key were absent, and whenever startup
succeeds the planning level is the compiled-in default `patient`. -/
theorem bad_plan_level_ignored (parses : String → Bool) (cfg : Config)
    (v : String) (hv : cfg.fftPlanLevel = some v)
    (hbad : parse_plan_level v = none) :
    loadconfig parses cfg = loadconfig parses { cfg with fftPlanLevel := none }
    ∧ ∀ st : RunState, loadconfig parses cfg = Except.ok st →
        st.planLevel = PlanLevel.patient := by
  have h1 : set_plan_level v PlanLevel.patient = PlanLevel.patient := by
    simp [set_plan_level, hbad]
  have h2 : set_plan_level "patient" PlanLevel.patient = PlanLevel.patient := by
    decide
  constructor
  · rw [loadconfig, loadconfig]
    simp only [hv, Option.getD_some, Option.getD_none]
    rw [h1, h2]
  · intro st hst
    rw [loadconfig] at hst
    simp only [hv, Option.getD_some, h1] at hst
    split_ifs at hst
    injection hst with h
    rw [← h]

/-- C6 witness for the amended claim: the bogus-valued configuration behaves
like the same configuration without the key, and its successful startup
carries planning level `patient`. -/
theorem bad_plan_level_ignored_witness :
    (bogus_plan_cfg.fftPlanLevel = some "bogus"
      ∧ parse_plan_level "bogus" = none)
    ∧ loadconfig (fun _ => true) bogus_plan_cfg
        = loadconfig (fun _ => true) { bogus_plan_cfg with fftPlanLevel := none }
    ∧ (⟨PlanLevel.patient, []⟩ : RunState).planLevel = PlanLevel.patient :=
  ⟨⟨rfl, by decide⟩,
    (bad_plan_level_ignored (fun _ => true) bogus_plan_cfg "bogus" rfl
      (by decide)).1,
    (bad_plan_level_ignored (fun _ => true) bogus_plan_cfg "bogus" rfl
      (by decide)).2 ⟨PlanLevel.patient, []⟩ rfl⟩

/-- Helper: the spur loop over a run of accepted nonzero-shift spurs followed
by an accepted zero-shift spur writes one entry per spur and ends with the
DC entry. -/
theorem spur_entries_accepted (isreal : Bool) (N M samprate : ℤ) (f : ℚ)
    (rest : List ℚ) (hf : compute_tuning isreal N M samprate f = some 0) :
    ∀ pre : List ℚ,
      (∀ g ∈ pre, ∃ s, compute_tuning isreal N M samprate g = some s ∧ s ≠ 0) →
      spur_entries isreal N M samprate (pre ++ f :: rest)
        = pre.map (fun g =>
            ⟨|(compute_tuning isreal N M samprate g).getD 0|, 1/100, 0⟩)
          ++ [⟨0, 1/100, 0⟩] := by
  intro pre
  induction pre with
  | nil =>
    intro _
    simp [spur_entries, hf]
  | cons g pre ih =>
    intro hpre
    obtain ⟨s, hs, hs0⟩ := hpre g (List.mem_cons_self g pre)
    have hrest := ih (fun x hx => hpre x (List.mem_cons_of_mem g hx))
    simp [spur_entries, hs, hs0, hrest]

/-- C7 counterexample: spurs `[250 Hz, 600 Hz]` at samprate 1000 Hz (complex
input, N = 1000): the 250 Hz spur is accepted at bin 250, the 600 Hz spur is
beyond samprate/2 and rejected, and the loop breaks without ever writing the
DC entry — the last populated notch entry has bin 250, not bin 0. -/
theorem notch_dc_last_cex :
    spur_entries false 1000 1 1000 [250, 600] = [⟨250, 1/100, 0⟩]
    ∧ (spur_entries false 1000 1 1000 [250, 600]).getLast?
        = some ⟨250, 1/100, 0⟩
    ∧ (NotchState.bin ⟨250, 1/100, 0⟩ ≠ 0) := by
  have h1 : compute_tuning false 1000 1 1000 250 = some 250 := by
    rw [compute_tuning]
    norm_num
  have h2 : compute_tuning false 1000 1 1000 600 = none := by
    rw [compute_tuning]
    norm_num
  have e : spur_entries false 1000 1 1000 [250, 600] = [⟨250, 1/100, 0⟩] := by
    simp [spur_entries, h1, h2]
  refine ⟨e, by rw [e]; rfl, by decide⟩

/-- C7 amended: the notch array ends with a zeroed sentinel whenever fewer
than 100 entries are populated, and the last populated entry is the DC
(bin 0, α = 0.01) suppressor provided compute_tuning accepts every spur
before the first zero-shift one (a rejected spur stops the scan early,
without writing the DC entry); every accepted non-DC spur is stored before
the DC entry with `bin = |shift|` and `alpha = 0.01`. -/
theorem notch_list_spec (isreal : Bool) (N M samprate : ℤ)
    (pre : List ℚ) (f : ℚ) (rest : List ℚ)
    (hpre : ∀ g ∈ pre, ∃ s, compute_tuning isreal N M samprate g = some s ∧ s ≠ 0)
    (hf : compute_tuning isreal N M samprate f = some 0)
    (hlen : pre.length < 99) :
    spur_entries isreal N M samprate (pre ++ f :: rest)
      = pre.map (fun g =>
          ⟨|(compute_tuning isreal N M samprate g).getD 0|, 1/100, 0⟩)
        ++ [⟨0, 1/100, 0⟩]
    ∧ (spur_entries isreal N M samprate (pre ++ f :: rest)).getLast?
        = some ⟨0, 1/100, 0⟩
    ∧ (notches isreal N M samprate (pre ++ f :: rest))[pre.length + 1]?
        = some zero_notch := by
  have e := spur_entries_accepted isreal N M samprate f rest hf pre hpre
  have hw : (spur_entries isreal N M samprate (pre ++ f :: rest)).length
      = pre.length + 1 := by
    rw [e]
    simp
  refine ⟨e, ?_, ?_⟩
  · rw [e]
    exact List.getLast?_concat _
  · rw [notches]
    simp only [hw]
    rw [List.getElem?_append_right (by omega)]
    rw [List.getElem?_replicate]
    simp only [hw]
    rw [if_pos (by omega)]

/-- C7 witness for the amended claim: one accepted spur at 250 Hz followed by
the 0 Hz entry yields the spur entry at bin 250 then the DC entry, with the
zeroed sentinel right after. -/
theorem notch_list_spec_witness :
    spur_entries false 1000 1 1000 [250, 0]
        = [⟨250, 1/100, 0⟩, ⟨0, 1/100, 0⟩]
    ∧ (spur_entries false 1000 1 1000 [250, 0]).getLast? = some ⟨0, 1/100, 0⟩
    ∧ (notches false 1000 1 1000 [250, 0])[2]? = some zero_notch := by
  have h250 : compute_tuning false 1000 1 1000 250 = some 250 := by
    rw [compute_tuning]
    norm_num
  have h0 : compute_tuning false 1000 1 1000 0 = some 0 := by
    rw [compute_tuning]
    norm_num
  have h := notch_list_spec false 1000 1 1000 [250] 0 []
    (fun g hg => by
      have : g = 250 := by simpa using hg
      subst this
      exact ⟨250, h250, by decide⟩)
    h0 (by decide)
  obtain ⟨e1, e2, e3⟩ := h
  refine ⟨?_, ?_, ?_⟩
  · rw [show ([250] ++ (0 : ℚ) :: ([] : List ℚ)) = [250, 0] from rfl] at e1
    rw [e1]
    simp [h250]
  · rw [show ([250] ++ (0 : ℚ) :: ([] : List ℚ)) = [250, 0] from rfl] at e2
    exact e2
  · rw [show ([250] ++ (0 : ℚ) :: ([] : List ℚ)) = [250, 0] from rfl] at e3
    exact e3

end Radiod
